import Mathlib

/-!
Verification development for the intake triage service
(src/lib/intake/triage-service).  The Python modules models.py,
entities.py, classifier.py, vectors.py, database.py and server.py are
shallowly embedded below: pure functions become Lean functions, calls to
external collaborators (spaCy model, ChromaDB, the classification
oracle, sqlite) become explicit outcome parameters of type Except or
state-passing over an explicit store, Python floats are modelled by
exact rationals, and Python int by Lean Int.
-/

namespace Imladris

/-! ## Enums (models.py, class Category / Priority / EstimatedTime / TriageAction) -/

/-- models.py Category: the closed category enum. -/
inductive Category where
  | actionRequired
  | fyi
  | awaitingReply
  | delegated
  | scheduled
  | reference
deriving DecidableEq, Repr

/-- The string value of a Category member (Category is a str Enum). -/
def Category.value : Category → String
  | .actionRequired => "Action-Required"
  | .fyi => "FYI"
  | .awaitingReply => "Awaiting-Reply"
  | .delegated => "Delegated"
  | .scheduled => "Scheduled"
  | .reference => "Reference"

/-- Python Category(s): looks the string up in the enum; a string that is
not a member raises ValueError, modelled by none. -/
def Category.ofString? : String → Option Category
  | "Action-Required" => some .actionRequired
  | "FYI" => some .fyi
  | "Awaiting-Reply" => some .awaitingReply
  | "Delegated" => some .delegated
  | "Scheduled" => some .scheduled
  | "Reference" => some .reference
  | _ => none

/-- models.py Priority enum. -/
inductive Priority where
  | p0
  | p1
  | p2
  | p3
deriving DecidableEq, Repr

/-- The string value of a Priority member. -/
def Priority.value : Priority → String
  | .p0 => "P0"
  | .p1 => "P1"
  | .p2 => "P2"
  | .p3 => "P3"

/-- Python Priority(s): lookup in the enum, none models ValueError. -/
def Priority.ofString? : String → Option Priority
  | "P0" => some .p0
  | "P1" => some .p1
  | "P2" => some .p2
  | "P3" => some .p3
  | _ => none

/-- models.py EstimatedTime enum. -/
inductive EstimatedTime where
  | fiveMin
  | fifteenMin
  | thirtyMin
  | oneHour
  | twoPlus
deriving DecidableEq, Repr

/-- The string value of an EstimatedTime member. -/
def EstimatedTime.value : EstimatedTime → String
  | .fiveMin => "5min"
  | .fifteenMin => "15min"
  | .thirtyMin => "30min"
  | .oneHour => "1hr"
  | .twoPlus => "2hr+"

/-- models.py TriageAction enum. -/
inductive TriageAction where
  | confirmed
  | adjusted
  | overridden
deriving DecidableEq, Repr

/-- The string value of a TriageAction member. -/
def TriageAction.value : TriageAction → String
  | .confirmed => "confirmed"
  | .adjusted => "adjusted"
  | .overridden => "overridden"

/-! ## Data models (models.py) -/

/-- models.py IntakeItem. -/
structure IntakeItem where
  id : String
  zone : String
  source : String
  source_id : String
  type : String
  subject : Option String := none
  body : Option String := none
  from_name : Option String := none
  from_address : Option String := none
  participants : Option String := none
  created_at : Option String := none
  updated_at : Option String := none
deriving DecidableEq, Repr

/-- models.py ExtractedEntity: one raw spaCy span. -/
structure ExtractedEntity where
  text : String
  label : String
  start : Nat
  stop : Nat
deriving DecidableEq, Repr

/-- models.py ExtractedEntities. -/
structure ExtractedEntities where
  people : List String := []
  organizations : List String := []
  dates : List String := []
  times : List String := []
  locations : List String := []
  urgency_cues : List String := []
  all_entities : List ExtractedEntity := []
deriving DecidableEq, Repr

/-- models.py SimilarItem; similarity is a Python float, modelled by Rat. -/
structure SimilarItem where
  id : String
  similarity : ℚ
  subject : Option String := none
  category : Option String := none
  priority : Option String := none
deriving DecidableEq, Repr

/-- models.py DeterministicContext. -/
structure DeterministicContext where
  entities : ExtractedEntities
  similar_items : List SimilarItem := []
  rule_matches : List String := []
  proposed_category : Option String := none
  proposed_priority : Option String := none
  confidence : ℚ := 0
deriving DecidableEq, Repr

/-- models.py TriageClassification (the Instructor output model).  The
pydantic bound 0 <= confidence <= 100 is enforced at construction sites. -/
structure TriageClassification where
  action : TriageAction
  category : Category
  priority : Priority
  quick_win : Bool
  quick_win_reason : Option String := none
  estimated_time : Option EstimatedTime := none
  confidence : ℤ
  reasoning : String
deriving DecidableEq, Repr

/-- models.py TriageResult. -/
structure TriageResult where
  id : String
  category : String
  priority : String
  quick_win : Bool
  quick_win_reason : Option String := none
  estimated_time : Option String := none
  confidence : ℤ
  reasoning : String
  action : String
  triaged_by : String := "ai-verified"
  entities : ExtractedEntities
  similar_items : List SimilarItem
  rule_matches : List String
deriving DecidableEq, Repr

/-- models.py CorrectionRequest. -/
structure CorrectionRequest where
  intake_id : String
  original_category : Option String := none
  original_priority : Option String := none
  corrected_category : String
  corrected_priority : String
  reason : Option String := none
deriving DecidableEq, Repr

/-! ## Python primitives used by the embedding -/

/-- Python x or d for an optional string x: None and the empty string are
falsy and give d. -/
def pyOr (x : Option String) (d : String) : String :=
  match x with
  | none => d
  | some s => if s = "" then d else s

/-- Python int(q) on a float q: truncation toward zero. -/
def pyInt (q : ℚ) : ℤ :=
  if 0 ≤ q then ⌊q⌋ else ⌈q⌉

/-- Python str.lower(), mapping each character to lower case (ASCII
model of the unicode mapping, matching the inputs considered here). -/
def pyLower (s : String) : String := String.mk (s.toList.map Char.toLower)

/-- Modelled from the spec: the round function the spec refers to
(Python built-in round with no digits argument), i.e. rounding to the
nearest integer with ties going to the even integer.  It is used only to
compare the specified fallback confidence against the implemented one. -/
def pyRound (q : ℚ) : ℤ :=
  let f : ℤ := ⌊q⌋
  let r : ℚ := q - f
  if r < 1/2 then f
  else if 1/2 < r then f + 1
  else if f % 2 = 0 then f else f + 1

/-! ## classifier.py -/

/-- classifier.py classify, lines 152-162: the except-branch fallback.
Category(...) and Priority(...) raise ValueError on a non-member string
and the pydantic bound on confidence raises ValidationError when
violated; both are modelled by Except.error.  e is the stringified
oracle exception. -/
def fallbackClassification (context : DeterministicContext) (e : String) :
    Except String TriageClassification :=
  match Category.ofString? (pyOr context.proposed_category "Action-Required") with
  | none => .error "ValueError: invalid Category"
  | some cat =>
    match Priority.ofString? (pyOr context.proposed_priority "P2") with
    | none => .error "ValueError: invalid Priority"
    | some pri =>
      let conf : ℤ := pyInt (context.confidence * 100)
      if 0 ≤ conf ∧ conf ≤ 100 then
        .ok { action := .confirmed
              category := cat
              priority := pri
              quick_win := false
              confidence := conf
              reasoning := "AI classification failed, using deterministic: " ++ e }
      else .error "ValidationError: confidence out of range"

/-- classifier.py classify, lines 130-162.  get_client() runs before the
try block, so a failure there propagates (clientOutcome).  The oracle
call client.messages.create inside the try either returns a validated
TriageClassification or raises (callOutcome); on a raise the fallback is
built.  Prompt construction (build_classification_prompt) is total string
formatting and is not modelled. -/
def classify (item : IntakeItem) (context : DeterministicContext)
    (clientOutcome : Except String Unit)
    (callOutcome : Except String TriageClassification) :
    Except String TriageClassification :=
  match clientOutcome with
  | .error e => .error e
  | .ok _ =>
    match callOutcome with
    | .ok result => .ok result
    | .error e => fallbackClassification context e

/-- classifier.py classify_with_corrections, lines 176-189: one recent
correction rendered into the corrections text (the loop body). -/
def renderCorrection (orig_cat orig_pri corr_cat corr_pri : Option String)
    (reason : Option String) : String :=
  let base := "- Changed " ++ (orig_cat.getD "None") ++ "/" ++ (orig_pri.getD "None")
    ++ " → " ++ (corr_cat.getD "None") ++ "/" ++ (corr_pri.getD "None")
  let withReason :=
    match reason with
    | some r => if r = "" then base else base ++ " (reason: " ++ r ++ ")"
    | none => base
  withReason ++ "\n"

/-- A recent-corrections dict as consumed by classify_with_corrections
(keys read via .get, so every field is optional). -/
structure CorrectionDict where
  original_category : Option String := none
  original_priority : Option String := none
  corrected_category : Option String := none
  corrected_priority : Option String := none
  reason : Option String := none
deriving DecidableEq, Repr

/-- classifier.py classify_with_corrections, lines 177-189: the context
transformation performed before delegating to classify.  The local
corrections_text accumulates the rendered corrections for the first 5
entries but is never used afterwards; only the count summary string is
appended to rule_matches.  Returns the modified context together with
the (unused) corrections text, so the divergence is visible. -/
def contextWithCorrections (context : DeterministicContext)
    (recent_corrections : List CorrectionDict) : DeterministicContext × String :=
  if recent_corrections.isEmpty then (context, "")
  else
    let corrections_text :=
      (recent_corrections.take 5).foldl
        (fun acc c => acc ++ renderCorrection c.original_category c.original_priority
          c.corrected_category c.corrected_priority c.reason)
        "\n\nRECENT USER CORRECTIONS (learn from these):\n"
    let context :=
      { context with rule_matches := context.rule_matches ++
          ["User corrections: " ++ toString recent_corrections.length ++ " recent"] }
    (context, corrections_text)

/-- classifier.py classify_with_corrections, lines 165-191. -/
def classify_with_corrections (item : IntakeItem) (context : DeterministicContext)
    (recent_corrections : List CorrectionDict)
    (clientOutcome : Except String Unit)
    (callOutcome : Except String TriageClassification) :
    Except String TriageClassification :=
  classify item (contextWithCorrections context recent_corrections).1
    clientOutcome callOutcome

/-! ## entities.py: urgency-cue regular expressions

The fixed URGENCY_PATTERNS (entities.py lines 25-42) use a small
fragment of Python re syntax: literal runs, word boundaries, an optional
any-character, one-or-more whitespace, alternation, an optional literal
and one capture group.  The fragment is embedded as the RE type below
with Python re semantics: alternation tries the left branch first,
optional and one-or-more are greedy, and findall scans left to right,
taking at the first matching position the highest-priority match and
resuming at its end; for a pattern with a capture group findall returns
the text of the group, not of the whole match. -/

/-- Python word character for the word boundary, ASCII range. -/
def isWordChar (c : Char) : Bool := c.isAlphanum || c = '_'

/-- Python whitespace for the backslash-s class, ASCII range. -/
def isPySpace (c : Char) : Bool :=
  c = ' ' || c = '\t' || c = '\n' || c = '\r' || c = '\x0b' || c = '\x0c'

/-- Whether the position between prev (the char before it, none at the
start) and the rest of the input is a word boundary. -/
def atBoundary (prev : Option Char) (s : List Char) : Bool :=
  (match prev with | none => false | some c => isWordChar c)
    != (match s.head? with | none => false | some c => isWordChar c)

/-- The regex fragment used by URGENCY_PATTERNS. -/
inductive RE where
  | lit (w : List Char)
  | wb
  | anyOpt
  | wsPlus
  | alt (a b : RE)
  | opt (a : RE)
  | seq (a b : RE)
  | group (a : RE)

/-- Length of the maximal whitespace run at the head of s. -/
def wsRunLen : List Char → Nat
  | [] => 0
  | c :: rest => if isPySpace c then wsRunLen rest + 1 else 0

/-- The splits a greedy one-or-more whitespace can produce at the head
of s, longest first: (consumed, rest) with consumed of length n, n-1,
..., 1 where n is the whitespace run length. -/
def wsSplits (s : List Char) : List (List Char × List Char) :=
  (List.range (wsRunLen s)).map fun j =>
    (s.take (wsRunLen s - j), s.drop (wsRunLen s - j))

/-- All ways an RE can match at the head of s, in backtracking priority
order: each result is (consumed, rest, captured group).  prev is the
char just before the current position, for word boundaries. -/
def runRE : RE → Option Char → List Char → List (List Char × List Char × Option (List Char))
  | .lit w, _, s => if w.isPrefixOf s then [(w, s.drop w.length, none)] else []
  | .wb, prev, s => if atBoundary prev s then [([], s, none)] else []
  | .anyOpt, _, s =>
    (match s with
     | [] => []
     | c :: rest => if c = '\n' then [] else [([c], rest, none)]) ++ [([], s, none)]
  | .wsPlus, _, s => (wsSplits s).map fun p => (p.1, p.2, none)
  | .alt a b, prev, s => runRE a prev s ++ runRE b prev s
  | .opt a, prev, s => runRE a prev s ++ [([], s, none)]
  | .seq a b, prev, s =>
    (runRE a prev s).flatMap fun r =>
      (runRE b (r.1.getLast?.or prev) r.2.1).map fun r2 =>
        (r.1 ++ r2.1, r2.2.1, r.2.2.or r2.2.2)
  | .group a, prev, s => (runRE a prev s).map fun r => (r.1, r.2.1, some r.1)

/-- The scan loop of Python re.findall: at each position try the
pattern; on a match emit the group capture if the pattern has a group,
else the whole match, and resume at the match end (advancing one char
when the match is empty); on no match advance one char.  Fuel bounds the
number of steps; input length + 1 suffices. -/
def findallAux : Nat → RE → Option Char → List Char → List (List Char)
  | 0, _, _, _ => []
  | Nat.succ fuel, re, prev, s =>
    match (runRE re prev s).head? with
    | some (c, rest, g) =>
      let m := g.getD c
      if c.isEmpty then
        match s with
        | [] => [m]
        | x :: xs => m :: findallAux fuel re (some x) xs
      else m :: findallAux fuel re c.getLast? rest
    | none =>
      match s with
      | [] => []
      | x :: xs => findallAux fuel re (some x) xs

/-- Python re.findall(pattern, s) for the RE fragment. -/
def findall (re : RE) (s : String) : List String :=
  (findallAux (s.toList.length + 1) re none s.toList).map fun cs => String.mk cs

/-- Helper: a backslash-b delimited pattern body. -/
def wbw (r : RE) : RE := .seq .wb (.seq r .wb)

/-- Helper: a literal regex from a string. -/
def relit (w : String) : RE := .lit w.toList

/-- entities.py URGENCY_PATTERNS, lines 25-42: each pattern with its
urgency type tag. -/
def URGENCY_PATTERNS : List (RE × String) :=
  [ (wbw (relit "urgent"), "explicit"),
    (wbw (relit "asap"), "explicit"),
    (wbw (relit "immediately"), "explicit"),
    (wbw (relit "emergency"), "explicit"),
    (wbw (relit "critical"), "explicit"),
    (wbw (relit "high priority"), "explicit"),
    (wbw (relit "today"), "implied"),
    (wbw (relit "eod"), "implied"),
    (wbw (relit "end of day"), "implied"),
    (wbw (relit "this morning"), "implied"),
    (wbw (relit "this afternoon"), "implied"),
    (wbw (relit "right away"), "implied"),
    (wbw (.seq (relit "time") (.seq .anyOpt (relit "sensitive"))), "implied"),
    (wbw (relit "deadline"), "deadline"),
    (wbw (.seq (relit "due") (.seq .wsPlus (.group (.alt (relit "by") (relit "date"))))),
      "deadline"),
    (wbw (.seq (relit "expir") (.group (.alt (.seq (relit "e") (.opt (relit "s"))) (relit "ing")))),
      "deadline") ]

/-- The inner loop of extract_urgency_cues (entities.py lines 148-150):
append to acc each element of ms not already present. -/
def dedupInto {α : Type} [DecidableEq α] (acc ms : List α) : List α :=
  ms.foldl (fun acc m => if m ∈ acc then acc else acc ++ [m]) acc

/-- entities.py extract_urgency_cues, lines 141-152: for each pattern in
order, findall over the lowercased text, appending each match not yet
recorded.  (The IGNORECASE flag is irrelevant: the text is already
lowercased and the patterns are lowercase literals.) -/
def extract_urgency_cues (text : String) : List String :=
  let text_lower := pyLower text
  URGENCY_PATTERNS.foldl
    (fun cues pat => dedupInto cues (findall pat.1 text_lower))
    []

/-! ## entities.py: extract_entities -/

/-- A spaCy entity span as read from doc.ents. -/
structure SpacyEnt where
  text : String
  label : String
  start_char : Nat
  end_char : Nat
deriving DecidableEq, Repr

/-- entities.py extract_entities, lines 101-126: the categorization loop
body for one spaCy span, with per-list dedup membership checks. -/
def entStep (acc : ExtractedEntities) (ent : SpacyEnt) : ExtractedEntities :=
  let e : ExtractedEntity :=
    { text := ent.text, label := ent.label, start := ent.start_char, stop := ent.end_char }
  let acc := { acc with all_entities := acc.all_entities ++ [e] }
  if ent.label = "PERSON" then
    if ent.text ∈ acc.people then acc
    else { acc with people := acc.people ++ [ent.text] }
  else if ent.label = "ORG" then
    if ent.text ∈ acc.organizations then acc
    else { acc with organizations := acc.organizations ++ [ent.text] }
  else if ent.label = "DATE" then
    if ent.text ∈ acc.dates then acc
    else { acc with dates := acc.dates ++ [ent.text] }
  else if ent.label = "TIME" then
    if ent.text ∈ acc.times then acc
    else { acc with times := acc.times ++ [ent.text] }
  else if ent.label = "GPE" || ent.label = "LOC" || ent.label = "FAC" then
    if ent.text ∈ acc.locations then acc
    else { acc with locations := acc.locations ++ [ent.text] }
  else acc

/-- Python str.strip() with no argument: leading and trailing
whitespace removed (ASCII whitespace range, as in isPySpace). -/
def pyStrip (s : String) : String :=
  String.mk (((s.toList.dropWhile isPySpace).reverse.dropWhile isPySpace).reverse)

/-- entities.py extract_entities, lines 81-138.  The spaCy pipeline
get_nlp(); nlp(text) is an external model call: nlp is its outcome, an
error when no model can be loaded (the RuntimeError of get_nlp, i.e.
ModelUnavailable) and otherwise the list of recognized spans. -/
def extract_entities (text : String) (nlp : Except String (List SpacyEnt)) :
    Except String ExtractedEntities :=
  if text = "" || pyStrip text = "" then .ok {}
  else
    match nlp with
    | .error e => .error e
    | .ok ents =>
      let acc := ents.foldl entStep {}
      .ok { acc with urgency_cues := extract_urgency_cues text }

/-! ## server.py: rules engine (apply_rules, lines 74-141)

The six sequential rule blocks of apply_rules are embedded as step
functions over a RuleState threaded in source order.  re.search on the
VIP and newsletter patterns is substring search: those pattern strings
contain no regex metacharacters. -/

/-- Python: needle in hay (substring test). -/
def strContains (hay needle : String) : Bool :=
  decide (needle.toList <:+: hay.toList)

/-- server.py VIP_PATTERNS, lines 56-58 (shipped empty). -/
def VIP_PATTERNS : List String := []

/-- server.py URGENT_KEYWORDS, lines 60-63. -/
def URGENT_KEYWORDS : List String :=
  ["urgent", "asap", "immediately", "emergency", "critical", "deadline", "today", "eod"]

/-- server.py NEWSLETTER_PATTERNS, lines 65-71. -/
def NEWSLETTER_PATTERNS : List String :=
  ["noreply@", "newsletter@", "digest@", "no-reply@", "unsubscribe"]

/-- The local state of apply_rules: the matches list (called
rule_matches here since matches is a Lean keyword), category, priority,
confidence.  category and priority only ever hold None or a non-empty
member string, so Python truthiness of category is isSome. -/
structure RuleState where
  rule_matches : List String := []
  category : Option String := none
  priority : Option String := none
  confidence : ℚ := 0
deriving DecidableEq, Repr

/-- apply_rules lines 88-95: the VIP loop (break after the first hit). -/
def vipStep (from_addr : String) (s : RuleState) : RuleState :=
  match VIP_PATTERNS.find? (fun pat => strContains from_addr pat) with
  | some _ =>
    { s with rule_matches := s.rule_matches ++ ["vip-sender"]
             category := some "Action-Required"
             priority := some "P1"
             confidence := 9/10 }
  | none => s

/-- apply_rules lines 97-103: the urgency-cues block. -/
def urgencyStep (entities : ExtractedEntities) (s : RuleState) : RuleState :=
  if entities.urgency_cues.isEmpty then s
  else
    let s := { s with rule_matches := s.rule_matches ++
        ["urgency-cues: " ++ String.intercalate ", " (entities.urgency_cues.take 3)] }
    if s.category.isNone then
      { s with category := some "Action-Required"
               priority := some "P1"
               confidence := max s.confidence (7/10) }
    else s

/-- apply_rules lines 105-114: the urgent-keyword loop (label appended
at most once, break after the first matching keyword). -/
def keywordStep (text : String) (s : RuleState) : RuleState :=
  match URGENT_KEYWORDS.find? (fun k => strContains text k) with
  | some _ =>
    let s :=
      if "urgent-keywords" ∈ s.rule_matches then s
      else { s with rule_matches := s.rule_matches ++ ["urgent-keywords"] }
    if s.category.isNone then
      { s with category := some "Action-Required"
               priority := some "P1"
               confidence := max s.confidence (6/10) }
    else s
  | none => s

/-- apply_rules lines 116-123: the newsletter loop; category and
priority are overwritten unconditionally. -/
def newsletterStep (from_addr text : String) (s : RuleState) : RuleState :=
  match NEWSLETTER_PATTERNS.find?
      (fun pat => strContains from_addr pat || strContains text pat) with
  | some _ =>
    { s with rule_matches := s.rule_matches ++ ["newsletter-pattern"]
             category := some "FYI"
             priority := some "P3"
             confidence := max s.confidence (8/10) }
  | none => s

/-- apply_rules lines 125-131: the short-question block. -/
def questionStep (text : String) (s : RuleState) : RuleState :=
  if strContains text "?" && decide (text.toList.length < 500) then
    let s := { s with rule_matches := s.rule_matches ++ ["short-question"] }
    if s.category.isNone then
      { s with category := some "Action-Required"
               priority := some "P2"
               confidence := max s.confidence (1/2) }
    else s
  else s

/-- apply_rules lines 133-139: the calendar/meeting block. -/
def meetingStep (itemType : String) (text : String) (s : RuleState) : RuleState :=
  if itemType = "calendar" || strContains text "meeting" || strContains text "call" then
    let s := { s with rule_matches := s.rule_matches ++ ["meeting-indicator"] }
    if s.category.isNone then
      { s with category := some "Scheduled"
               priority := some "P2"
               confidence := max s.confidence (6/10) }
    else s
  else s

/-- server.py apply_rules, lines 74-141. -/
def apply_rules (item : IntakeItem) (entities : ExtractedEntities) :
    List String × Option String × Option String × ℚ :=
  let text := pyLower ((item.subject.getD "") ++ " " ++ (item.body.getD ""))
  let from_addr := pyLower (item.from_address.getD "")
  let s : RuleState := {}
  let s := vipStep from_addr s
  let s := urgencyStep entities s
  let s := keywordStep text s
  let s := newsletterStep from_addr text s
  let s := questionStep text s
  let s := meetingStep item.type text s
  (s.rule_matches, s.category, s.priority, s.confidence)

/-! ## vectors.py: find_similar (lines 119-220)

The ChromaDB collection is an external store; the embedding models the
observable inputs of find_similar: the collection count and the outcome
of collection.query (an exception, or the per-query ids / distances /
metadatas lists; the code reads results["..."][0] of a single query
text).  Distances are Python floats, modelled by Rat.  Of each metadata
dict only the keys read by find_similar (subject, category, priority)
are modelled. -/

/-- The metadata keys of a stored item that find_similar reads. -/
structure ChromaMeta where
  subject : Option String := none
  category : Option String := none
  priority : Option String := none
deriving DecidableEq, Repr

/-- The per-query lists of a successful collection.query reply.
distances and metadatas are none when the corresponding key is missing
or falsy (lines 187-188 guard on them). -/
structure QueryReply where
  ids : List String
  distances : Option (List ℚ) := none
  metadatas : Option (List ChromaMeta) := none
deriving DecidableEq, Repr

/-- Python round(x, 3). -/
def round3 (q : ℚ) : ℚ := round (q * 1000) / 1000

/-- find_similar lines 190-215: the result-processing loop, scanning the
ids with their indices; i is the index of the head of the remaining ids.
Skips the self match, computes similarity = 1 / (1 + distance) with the
1.0 default for a missing distance, drops entries below the minimum
similarity, and builds a SimilarItem with the similarity rounded to 3
decimal places and the metadata fields (defaulting to an empty dict). -/
def processResults (itemId : String) (minSim : ℚ) (distances : List ℚ)
    (metadatas : List ChromaMeta) : Nat → List String → List SimilarItem
  | _, [] => []
  | i, docId :: rest =>
    let tail := processResults itemId minSim distances metadatas (i + 1) rest
    if docId = itemId then tail
    else
      let distance := distances.getD i 1
      let similarity := 1 / (1 + distance)
      if similarity < minSim then tail
      else
        let meta := metadatas.getD i {}
        { id := docId
          similarity := round3 similarity
          subject := meta.subject
          category := meta.category
          priority := meta.priority } :: tail

/-- The sort key relation of find_similar line 218: sort by similarity
descending (Python list.sort with reverse=True is stable; the stable
insertionSort models it). -/
def simDesc (a b : SimilarItem) : Prop := b.similarity ≤ a.similarity

instance : DecidableRel simDesc :=
  fun a b => inferInstanceAs (Decidable (b.similarity ≤ a.similarity))

instance : IsTotal SimilarItem simDesc :=
  ⟨fun a b => le_total b.similarity a.similarity⟩

instance : IsTrans SimilarItem simDesc :=
  ⟨fun _ _ _ h1 h2 => le_trans h2 h1⟩

/-- vectors.py find_similar, lines 119-220.  collectionCount models
collection.count(); queryOutcome models the collection.query call (the
where filter passed to it only restricts which entries the external
store returns, so it needs no model of its own).  An exception from the
query is caught and yields [] (lines 176-178); an empty collection
yields [] (lines 142-143); empty ids yield [] (lines 183-184). -/
def find_similar (collectionCount : Nat) (item : IntakeItem) (top_k : Nat)
    (min_similarity : ℚ) (queryOutcome : Except String QueryReply) :
    List SimilarItem :=
  if collectionCount = 0 then []
  else
    match queryOutcome with
    | .error _ => []
    | .ok results =>
      if results.ids.isEmpty then []
      else
        let distances := results.distances.getD []
        let metadatas := results.metadatas.getD []
        let similar_items := processResults item.id min_similarity distances metadatas 0 results.ids
        (similar_items.insertionSort simDesc).take top_k

/-- vectors.py MIN_SIMILARITY (line 25), the default minimum similarity. -/
def MIN_SIMILARITY : ℚ := 1/2

/-! ## database.py: the sqlite store

The sqlite database is modelled as an explicit store of the two tables
the service touches: triage_corrections (append-only) and triage (one
current row per intake id).  Each database.py function opens its own
connection and commits or rolls back on its own, so each is a
self-contained state transition; whether a given call raises
(connection or SQL failure) is an outcome flag supplied by the caller,
and a raising call leaves the store unchanged (rollback). -/

/-- A row of triage_corrections as written by record_correction. -/
structure CorrectionRow where
  intake_id : String
  original_category : Option String
  original_priority : Option String
  corrected_category : String
  corrected_priority : String
  correction_reason : Option String
deriving DecidableEq, Repr

/-- A row of the triage table, restricted to the columns the service
reads or writes. -/
structure TriageRow where
  intake_id : String
  category : Option String
  priority : Option String
  triaged_by : String
deriving DecidableEq, Repr

/-- The store: the two tables. -/
structure DB where
  corrections : List CorrectionRow := []
  triage : List TriageRow := []
deriving DecidableEq, Repr

/-- database.py get_original_triage, lines 147-156: the current category
and priority of an item, (None, None) when no triage row exists. -/
def get_original_triage (db : DB) (intake_id : String) :
    Option String × Option String :=
  match db.triage.find? (fun r => r.intake_id = intake_id) with
  | some row => (row.category, row.priority)
  | none => (none, none)

/-- database.py record_correction, lines 70-100: INSERT one row into
triage_corrections; returns the new store and lastrowid (modelled as the
new number of rows, matching the autoincrement id of an append-only
table). -/
def record_correction (db : DB) (intake_id : String)
    (corrected_category corrected_priority : String)
    (original_category original_priority correction_reason : Option String) :
    DB × Nat :=
  let row : CorrectionRow :=
    { intake_id := intake_id
      original_category := original_category
      original_priority := original_priority
      corrected_category := corrected_category
      corrected_priority := corrected_priority
      correction_reason := correction_reason }
  ({ db with corrections := db.corrections ++ [row] }, db.corrections.length + 1)

/-- database.py update_triage_with_correction, lines 159-174: UPDATE
every triage row of the item in place to the corrected values with
triaged_by user; returns rowcount > 0. -/
def update_triage_with_correction (db : DB) (intake_id : String)
    (corrected_category corrected_priority : String) : DB × Bool :=
  ({ db with triage := db.triage.map fun r =>
      if r.intake_id = intake_id then
        { r with category := some corrected_category
                 priority := some corrected_priority
                 triaged_by := "user" }
      else r },
   db.triage.any fun r => r.intake_id = intake_id)

/-! ## server.py: the /correct endpoint (record_correction_endpoint,
lines 302-353)

The endpoint body is one try block; HTTPException 500 is raised from its
except clause, modelled as Except.error.  Whether each database call and
the ChromaDB upsert raise is given by outcome flags; the inner
try/except around upsert_item_by_id (lines 335-342) only logs, so
upsertFails never reaches the response.  The f-string renders a missing
original as the Python literal None. -/

/-- The JSON body of a successful /correct response (lines 344-351). -/
structure CorrectResponse where
  status : String
  correction_id : Nat
  intake_id : String
  original : String
  corrected_to : String
  triage_updated : Bool
deriving DecidableEq, Repr

/-- Python f-string rendering of an optional string. -/
def fmtOpt (o : Option String) : String := o.getD "None"

/-- server.py record_correction_endpoint, lines 302-353.  readFails,
writeFails and updateFails say whether get_original_triage,
record_correction and update_triage_with_correction raise on this call;
a raising call rolls back only its own connection.  After the update,
line 334 runs `from vectors import upsert_item_by_id` OUTSIDE the inner
try of lines 335-342 -- and vectors.py defines no function of that name,
so this import raises ImportError on every call.  The ImportError is
caught by the outer except of line 352, so the endpoint answers HTTP 500
even when all three authoritative steps succeeded (their commits having
already landed); the success response of lines 344-351 is unreachable.
Returns the resulting store and the response (error = HTTP 500). -/
def record_correction_endpoint (db : DB) (correction : CorrectionRequest)
    (readFails writeFails updateFails : Bool) :
    DB × Except String CorrectResponse :=
  if readFails then (db, .error "Failed to record correction")
  else
    let (original_category, original_priority) :=
      get_original_triage db correction.intake_id
    if writeFails then (db, .error "Failed to record correction")
    else
      let (db, _correction_id) := record_correction db correction.intake_id
        correction.corrected_category correction.corrected_priority
        original_category original_priority correction.reason
      if updateFails then (db, .error "Failed to record correction")
      else
        let (db, _updated) := update_triage_with_correction db
          correction.intake_id correction.corrected_category correction.corrected_priority
        -- line 334: from vectors import upsert_item_by_id -- the name is
        -- absent from vectors.py, so ImportError is raised before the
        -- inner try and the outer except yields HTTP 500 unconditionally
        (db, .error
          "Failed to record correction: cannot import name upsert_item_by_id from vectors")

/-! ## server.py: the /triage endpoint (triage_endpoint, lines 210-299)

Layers 1 and 2 (entity extraction, similarity search) are modelled
separately (extract_entities, find_similar); the endpoint takes their
results as inputs.  The ChromaDB upsert of line 279 is recorded in an
upsert log (item id, category, priority as passed to upsert_item); a
FastAPI request that raises is an Except.error. -/

/-- server.py triage_endpoint lines 276-299: the AI-verification tail of
the endpoint.  A raise from classify propagates (FastAPI turns it into a
request failure); on success the item is upserted into ChromaDB with the
classification category/priority (the upsert log) and the ai-verified
TriageResult is returned. -/
def aiBranch (item : IntakeItem) (entities : ExtractedEntities)
    (similar_items : List SimilarItem) (rule_matches : List String)
    (cls : Except String TriageClassification) :
    Except String (TriageResult × List (String × Option String × Option String)) :=
  match cls with
  | .error e => .error e
  | .ok classification =>
    -- lines 279-283: store in ChromaDB for future similarity
    let upserts := [(item.id, some classification.category.value,
      some classification.priority.value)]
    .ok ({ id := item.id
           category := classification.category.value
           priority := classification.priority.value
           quick_win := classification.quick_win
           quick_win_reason := classification.quick_win_reason
           estimated_time := classification.estimated_time.map EstimatedTime.value
           confidence := classification.confidence
           reasoning := classification.reasoning
           action := classification.action.value
           triaged_by := "ai-verified"
           entities := entities
           similar_items := similar_items
           rule_matches := rule_matches }, upserts)

/-- server.py triage_endpoint, lines 210-299. -/
def triage_endpoint (item : IntakeItem) (entities : ExtractedEntities)
    (similar_items : List SimilarItem) (skip_ai : Bool)
    (clientOutcome : Except String Unit)
    (callOutcome : Except String TriageClassification) :
    Except String (TriageResult × List (String × Option String × Option String)) :=
  let (rule_matches, proposed_cat, proposed_pri, rule_confidence) :=
    apply_rules item entities
  -- lines 235-238: boost confidence if similar items agree
  let rule_confidence :=
    match similar_items.head? with
    | some top_similar =>
      if top_similar.category = proposed_cat ∧ top_similar.similarity > 7/10 then
        min (rule_confidence + 2/10) (95/100)
      else rule_confidence
    | none => rule_confidence
  -- lines 240-246: use similarity suggestion if rules did not match
  let (proposed_cat, proposed_pri, rule_confidence) :=
    if proposed_cat.isNone then
      match similar_items.head? with
      | some top =>
        if (match top.category with | some c => c != "" | none => false) &&
            decide (top.similarity > 6/10) then
          (top.category, top.priority, top.similarity * (8/10))
        else (proposed_cat, proposed_pri, rule_confidence)
      | none => (proposed_cat, proposed_pri, rule_confidence)
    else (proposed_cat, proposed_pri, rule_confidence)
  let context : DeterministicContext :=
    { entities := entities
      similar_items := similar_items
      rule_matches := rule_matches
      proposed_category := proposed_cat
      proposed_priority := proposed_pri
      confidence := rule_confidence }
  if skip_ai then
    -- lines 259-273: deterministic result, no upsert
    .ok ({ id := item.id
           category := pyOr proposed_cat "Action-Required"
           priority := pyOr proposed_pri "P2"
           quick_win := false
           confidence := pyInt (rule_confidence * 100)
           reasoning := "AI verification skipped"
           action := "confirmed"
           triaged_by := "deterministic"
           entities := entities
           similar_items := similar_items
           rule_matches := rule_matches }, [])
  else
    aiBranch item entities similar_items rule_matches
      (classify item context clientOutcome callOutcome)

/-! ## Concrete fixtures used by witnesses and counterexamples -/

/-- A generic intake item (classify ignores the item except for the
prompt, which is not modelled). -/
def itemFixture : IntakeItem :=
  { id := "item-1", zone := "work", source := "email", source_id := "src-1"
    type := "email", subject := some "Hello", body := some "world"
    from_address := some "a@b.com" }

/-- A context whose proposed category is not a Category member. -/
def ctxInvalidCategory : DeterministicContext :=
  { entities := {}, proposed_category := some "Bogus" }

/-- A valid context with deterministic confidence 0.999. -/
def ctxConf999 : DeterministicContext :=
  { entities := {}, proposed_category := some "FYI"
    proposed_priority := some "P3", confidence := 999/1000 }

/-- A valid context with deterministic confidence 0.29. -/
def ctxConf029 : DeterministicContext :=
  { entities := {}, proposed_category := some "FYI"
    proposed_priority := some "P3", confidence := 29/100 }

/-- A valid context with deterministic confidence 0.7. -/
def ctxConf07 : DeterministicContext :=
  { entities := {}, proposed_category := some "Action-Required"
    proposed_priority := some "P1", confidence := 7/10 }

/-- One recent correction dict. -/
def correctionDictFixture : CorrectionDict :=
  { original_category := some "FYI", original_priority := some "P3"
    corrected_category := some "Action-Required"
    corrected_priority := some "P1", reason := some "boss" }

/-- A short-question item: triggers the short-question rule, so the
deterministic proposal is set. -/
def itemQuestion : IntakeItem :=
  { id := "item-q", zone := "work", source := "email", source_id := "src-q"
    type := "email", subject := some "Hello?", body := some "quick one"
    from_address := some "a@b.com" }

/-- A newsletter-sender item with an urgent subject. -/
def itemNewsletterUrgent : IntakeItem :=
  { id := "item-n", zone := "work", source := "email", source_id := "src-n"
    type := "email", subject := some "Urgent deals"
    body := some "buy now", from_address := some "newsletter@x.com" }

/-- Entities with the urgency cue urgent. -/
def entUrgent : ExtractedEntities := { urgency_cues := ["urgent"] }

/-- A well-formed oracle classification. -/
def clsScheduled : TriageClassification :=
  { action := .confirmed, category := .scheduled, priority := .p2
    quick_win := false, confidence := 80, reasoning := "a meeting" }

/-- A bare query item for the similarity-query witness. -/
def itemQ : IntakeItem :=
  { id := "q", zone := "z", source := "email", source_id := "sq", type := "email" }

/-- A query reply holding one neighbor at distance 0 and the querying
item itself. -/
def replyFixture : QueryReply :=
  { ids := ["a", "q"], distances := some [0, 9], metadatas := none }

/-! # Theorems -/

/-! ## C10: empty or whitespace-only text -/

/-- C10: for every input text that is empty or consists only of
whitespace, extract_entities returns the empty ExtractedEntities without
consulting the entity-recognizer model at all: the result is ok and
independent of the model outcome nlp, so a ModelUnavailable error in nlp
is never raised for such input. -/
theorem extract_entities_whitespace_total (text : String)
    (nlp : Except String (List SpacyEnt)) (h : pyStrip text = "") :
    extract_entities text nlp = .ok {} := by
  simp [extract_entities, h]

/-- Witness for C10 at text two spaces with an unavailable model. -/
theorem extract_entities_whitespace_total_witness :
    extract_entities "  " (.error "ModelUnavailable") = .ok {} :=
  extract_entities_whitespace_total "  " (.error "ModelUnavailable") (by decide)

/-! ## C1: /correct error behavior -/

/-- C1 (the code evaluated at the failing input): the /correct endpoint
never returns its success response -- for every store, request and
combination of step outcomes, including the run where the original-triage
read, the correction-record write and the triage-record update all
succeed, the response is the HTTP 500 error, because line 334 of
server.py imports upsert_item_by_id from vectors.py, a function that
does not exist, raising ImportError outside the inner try on every
call. -/
theorem correct_always_500 (db : DB) (c : CorrectionRequest)
    (r w u : Bool) :
    ((record_correction_endpoint db c r w u).2).isOk = false := by
  cases r <;> cases w <;> cases u <;> rfl

/-! ## C9: /correct authoritative writes -/

/-- C9: whenever the three authoritative steps of /correct succeed,
exactly one CorrectionRecord is appended, carrying as original values
the pre-correction category and priority read from the current triage
row (None/None if never triaged), and every current triage row of the
item is updated in place to the corrected category and priority with
triaged_by user.  Both writes persist even though the subsequent
similarity-index update step fails (as it does on every call, via the
ImportError of server.py line 334): each database function committed on
its own connection before that line runs. -/
theorem correct_appends_and_updates (db : DB) (c : CorrectionRequest) :
    (record_correction_endpoint db c false false false).1.corrections
      = db.corrections ++
        [{ intake_id := c.intake_id
           original_category := (get_original_triage db c.intake_id).1
           original_priority := (get_original_triage db c.intake_id).2
           corrected_category := c.corrected_category
           corrected_priority := c.corrected_priority
           correction_reason := c.reason }] ∧
    (record_correction_endpoint db c false false false).1.triage
      = db.triage.map (fun row =>
          if row.intake_id = c.intake_id then
            { row with category := some c.corrected_category
                       priority := some c.corrected_priority
                       triaged_by := "user" }
          else row) :=
  ⟨rfl, rfl⟩

/-! ## C2: the Verifier never raises -/

/-- Helper: on a valid context (proposed category and priority resolve
to enum members after the Python or-defaulting, confidence in [0,1]) the
fallback construction succeeds and its fields are the deterministic
ones. -/
theorem fallback_ok_of_valid (ctx : DeterministicContext) (e : String)
    (hc : (Category.ofString? (pyOr ctx.proposed_category "Action-Required")).isSome = true)
    (hp : (Priority.ofString? (pyOr ctx.proposed_priority "P2")).isSome = true)
    (h0 : 0 ≤ ctx.confidence) (h1 : ctx.confidence ≤ 1) :
    ∃ cat pri,
      Category.ofString? (pyOr ctx.proposed_category "Action-Required") = some cat ∧
      Priority.ofString? (pyOr ctx.proposed_priority "P2") = some pri ∧
      fallbackClassification ctx e = .ok
        { action := .confirmed, category := cat, priority := pri
          quick_win := false, confidence := pyInt (ctx.confidence * 100)
          reasoning := "AI classification failed, using deterministic: " ++ e } := by
  obtain ⟨cat, hcat⟩ := Option.isSome_iff_exists.mp hc
  obtain ⟨pri, hpri⟩ := Option.isSome_iff_exists.mp hp
  have hq0 : (0 : ℚ) ≤ ctx.confidence * 100 := by positivity
  have hq1 : ctx.confidence * 100 ≤ 100 := by nlinarith
  have hint : pyInt (ctx.confidence * 100) = ⌊ctx.confidence * 100⌋ := by
    simp [pyInt, hq0]
  have hconf : 0 ≤ pyInt (ctx.confidence * 100) ∧ pyInt (ctx.confidence * 100) ≤ 100 := by
    rw [hint]
    constructor
    · exact Int.floor_nonneg.mpr hq0
    · calc ⌊ctx.confidence * 100⌋ ≤ ⌊(100 : ℚ)⌋ := Int.floor_le_floor hq1
        _ = 100 := by norm_num
  refine ⟨cat, pri, hcat, hpri, ?_⟩
  simp [fallbackClassification, hcat, hpri, hconf]

/-- C2 counterexample: at this item and deterministic context (whose
proposed category, the string Bogus, is not a member of the Category
enum), the oracle call fails but the verify operation does not return
the fallback Classification: constructing the fallback raises, so the
call is not exception-free as claimed. -/
theorem classify_raises_counterexample :
    (classify itemFixture ctxInvalidCategory (.ok ()) (.error "oracle timeout")).isOk
      = false := by decide

/-- C2 (amended): for every item and every deterministic context whose
proposed category and priority resolve to members of their enums (after
the or-defaulting to Action-Required / P2) and whose confidence lies in
[0,1], and given that client construction succeeded, verify never
raises: an oracle success is returned as-is (no fallback), and an oracle
failure (and only such a failure) is converted into the deterministic
fallback Classification with action confirmed, the proposed (or default)
category and priority, quick_win false and the deterministic confidence
scaled to 0-100. -/
theorem classify_never_raises_on_valid_context (item : IntakeItem)
    (ctx : DeterministicContext)
    (hc : (Category.ofString? (pyOr ctx.proposed_category "Action-Required")).isSome = true)
    (hp : (Priority.ofString? (pyOr ctx.proposed_priority "P2")).isSome = true)
    (h0 : 0 ≤ ctx.confidence) (h1 : ctx.confidence ≤ 1) :
    (∀ callOutcome, (classify item ctx (.ok ()) callOutcome).isOk = true) ∧
    (∀ r, classify item ctx (.ok ()) (.ok r) = .ok r) ∧
    (∀ e, ∃ cat pri,
      Category.ofString? (pyOr ctx.proposed_category "Action-Required") = some cat ∧
      Priority.ofString? (pyOr ctx.proposed_priority "P2") = some pri ∧
      classify item ctx (.ok ()) (.error e) = .ok
        { action := .confirmed, category := cat, priority := pri
          quick_win := false, confidence := pyInt (ctx.confidence * 100)
          reasoning := "AI classification failed, using deterministic: " ++ e }) := by
  refine ⟨?_, fun r => rfl, ?_⟩
  · intro callOutcome
    cases callOutcome with
    | ok r => rfl
    | error e =>
      obtain ⟨cat, pri, _, _, hfb⟩ := fallback_ok_of_valid ctx e hc hp h0 h1
      show (fallbackClassification ctx e).isOk = true
      rw [hfb]
      rfl
  · intro e
    obtain ⟨cat, pri, hcat, hpri, hfb⟩ := fallback_ok_of_valid ctx e hc hp h0 h1
    exact ⟨cat, pri, hcat, hpri, hfb⟩

/-- Witness for C2 at a concrete valid context and a failing oracle. -/
theorem classify_never_raises_on_valid_context_witness :
    (classify itemFixture ctxConf07 (.ok ()) (.error "oracle timeout")).isOk = true :=
  (classify_never_raises_on_valid_context itemFixture ctxConf07
    (by decide) (by decide) (by norm_num [ctxConf07]) (by norm_num [ctxConf07])).1
    (.error "oracle timeout")

/-! ## C3: fallback confidence scaling -/

/-- C3 counterexample: at deterministic confidence 0.999 the fallback
confidence is 99 (Python int truncates 99.9), while the claimed
round(0.999 * 100) is 100. -/
theorem fallback_confidence_not_round_counterexample :
    (classify itemFixture ctxConf999 (.ok ()) (.error "oracle down")).map
        (fun c => c.confidence) = .ok 99 ∧
    pyRound (ctxConf999.confidence * 100) = 100 := by
  have hq : ctxConf999.confidence * (100 : ℚ) = 999/10 := by norm_num [ctxConf999]
  have hfloor : ⌊(999/10 : ℚ)⌋ = 99 := by norm_num [Int.floor_eq_iff]
  constructor
  · have h1 : Category.ofString? (pyOr ctxConf999.proposed_category "Action-Required")
        = some .fyi := by rfl
    have h2 : Priority.ofString? (pyOr ctxConf999.proposed_priority "P2")
        = some .p3 := by rfl
    have h3 : pyInt (ctxConf999.confidence * 100) = 99 := by
      rw [pyInt, hq, if_pos (by norm_num), hfloor]
    show (fallbackClassification ctxConf999 "oracle down").map
        (fun c => c.confidence) = .ok 99
    rw [fallbackClassification, h1, h2, h3]
    norm_num [Except.map]
  · rw [pyRound, hq]
    norm_num [hfloor]

/-- C3 (amended): whenever the Verifier falls back to the deterministic
result on a valid context, the confidence field equals the truncation
int(deterministic_confidence * 100), i.e. the floor for a nonnegative
confidence, not round(deterministic_confidence * 100). -/
theorem fallback_confidence_eq_trunc (item : IntakeItem)
    (ctx : DeterministicContext) (e : String)
    (hc : (Category.ofString? (pyOr ctx.proposed_category "Action-Required")).isSome = true)
    (hp : (Priority.ofString? (pyOr ctx.proposed_priority "P2")).isSome = true)
    (h0 : 0 ≤ ctx.confidence) (h1 : ctx.confidence ≤ 1) :
    (classify item ctx (.ok ()) (.error e)).map (fun c => c.confidence)
      = .ok ⌊ctx.confidence * 100⌋ := by
  obtain ⟨cat, pri, _, _, hfb⟩ := fallback_ok_of_valid ctx e hc hp h0 h1
  have hq0 : (0 : ℚ) ≤ ctx.confidence * 100 := by positivity
  show (fallbackClassification ctx e).map (fun c => c.confidence) = .ok ⌊ctx.confidence * 100⌋
  rw [hfb]
  simp [pyInt, hq0, Except.map]

/-- Witness for C3 at deterministic confidence 0.29. -/
theorem fallback_confidence_eq_trunc_witness :
    (classify itemFixture ctxConf029 (.ok ()) (.error "oracle down")).map
        (fun c => c.confidence) = .ok ⌊ctxConf029.confidence * 100⌋ :=
  fallback_confidence_eq_trunc itemFixture ctxConf029 "oracle down"
    (by decide) (by decide) (by norm_num [ctxConf029]) (by norm_num [ctxConf029])

/-! ## C4: the corrections-aware classify variant -/

/-- C4 (code evaluated at the failing input): with one recent
correction, classify_with_corrections renders the correction text
(original → corrected (reason)) into a local string but appends only the
count summary "User corrections: 1 recent" to the rule-match list; the
rendered text reaches neither the rule matches nor the delegated verify
call, whose context differs from the original only by that count entry. -/
theorem classify_with_corrections_drops_rendered_text :
    (contextWithCorrections { entities := {} } [correctionDictFixture]).1.rule_matches
      = ["User corrections: 1 recent"] ∧
    (contextWithCorrections { entities := {} } [correctionDictFixture]).2
      = "\n\nRECENT USER CORRECTIONS (learn from these):\n- Changed FYI/P3 → Action-Required/P1 (reason: boss)\n" ∧
    (∀ clientOutcome callOutcome,
      classify_with_corrections itemFixture { entities := {} } [correctionDictFixture]
          clientOutcome callOutcome
        = classify itemFixture
            (contextWithCorrections { entities := {} } [correctionDictFixture]).1
            clientOutcome callOutcome) :=
  ⟨by decide, by decide, fun _ _ => rfl⟩

/-! ## C5: the similarity-index upsert of /triage -/

/-- C5 counterexample: this deterministic-only triage request (skip_ai
true) completes successfully, yet the upsert log is empty: the item is
not upserted into the SimilarityIndex at all on this path. -/
theorem triage_skip_ai_no_upsert_counterexample :
    (triage_endpoint itemQuestion {} [] true (.ok ()) (.error "AI down")).isOk
      = true ∧
    (triage_endpoint itemQuestion {} [] true (.ok ()) (.error "AI down")).map
        (fun p => p.2)
      = .ok [] := by
  constructor
  · rfl
  · rfl

/-- Helper for C5: the AI branch upserts exactly the resulting category
and priority whenever it succeeds. -/
theorem aiBranch_upsert (item : IntakeItem) (entities : ExtractedEntities)
    (similar_items : List SimilarItem) (rule_matches : List String)
    (cls : Except String TriageClassification)
    (h : (aiBranch item entities similar_items rule_matches cls).isOk = true) :
    ∃ r, aiBranch item entities similar_items rule_matches cls
      = .ok (r, [(item.id, some r.category, some r.priority)]) := by
  cases cls with
  | error e => exact absurd h (by simp [aiBranch, Except.isOk, Except.toBool])
  | ok c => exact ⟨_, rfl⟩

/-- C5 (amended): the similarity-index upsert happens exactly on the
AI-verification path: a deterministic-only request (skip_ai true) always
succeeds and performs no upsert, while a successful AI-path request
performs exactly one upsert, of the item id with the resulting category
and priority. -/
theorem triage_upserts_only_on_ai_path (item : IntakeItem)
    (entities : ExtractedEntities) (similar_items : List SimilarItem)
    (clientOutcome : Except String Unit)
    (callOutcome : Except String TriageClassification) :
    ((triage_endpoint item entities similar_items true clientOutcome callOutcome).map
        (fun p => p.2) = .ok []) ∧
    (∀ h : (triage_endpoint item entities similar_items false clientOutcome
        callOutcome).isOk = true,
      ∃ r, triage_endpoint item entities similar_items false clientOutcome callOutcome
        = .ok (r, [(item.id, some r.category, some r.priority)])) := by
  constructor
  · rfl
  · intro h
    exact aiBranch_upsert item entities similar_items _ _ h

/-- Witness for C5 at a successful oracle classification: the AI path
upserts the item with the resulting category and priority. -/
theorem triage_upserts_only_on_ai_path_witness :
    ∃ r, triage_endpoint itemQuestion {} [] false (.ok ()) (.ok clsScheduled)
      = .ok (r, [(itemQuestion.id, some r.category, some r.priority)]) :=
  (triage_upserts_only_on_ai_path itemQuestion {} [] (.ok ()) (.ok clsScheduled)).2
    (by rfl)

/-! ## C6: urgency-cue extraction order and uniqueness -/

/-- Helper: unfolding dedupInto on a cons. -/
theorem dedupInto_cons {α : Type} [DecidableEq α] (acc : List α) (m : α) (ms : List α) :
    dedupInto acc (m :: ms) = dedupInto (if m ∈ acc then acc else acc ++ [m]) ms := rfl

/-- Helper: dedupInto preserves the absence of duplicates. -/
theorem dedupInto_nodup {α : Type} [DecidableEq α] (ms acc : List α)
    (h : acc.Nodup) : (dedupInto acc ms).Nodup := by
  induction ms generalizing acc with
  | nil => exact h
  | cons m ms ih =>
    rw [dedupInto_cons]
    by_cases hm : m ∈ acc
    · simpa [hm] using ih acc h
    · refine ih _ ?_
      simp only [hm, if_false]
      simp [List.nodup_append, h, hm]

/-- Helper: membership in dedupInto. -/
theorem dedupInto_mem {α : Type} [DecidableEq α] (ms acc : List α) (a : α) :
    a ∈ dedupInto acc ms ↔ a ∈ acc ∨ a ∈ ms := by
  induction ms generalizing acc with
  | nil => simp [dedupInto]
  | cons m ms ih =>
    rw [dedupInto_cons, ih]
    by_cases hm : m ∈ acc
    · simp only [hm, if_true, List.mem_cons]
      constructor
      · rintro (h | h)
        · exact Or.inl h
        · exact Or.inr (Or.inr h)
      · rintro (h | h | h)
        · exact Or.inl h
        · exact Or.inl (h ▸ hm)
        · exact Or.inr h
    · simp only [hm, if_false, List.mem_append, List.mem_cons,
        List.not_mem_nil, or_false]
      tauto

/-- Helper: dedupInto over an appended list is sequential dedupInto. -/
theorem dedupInto_append {α : Type} [DecidableEq α] (acc xs ys : List α) :
    dedupInto acc (xs ++ ys) = dedupInto (dedupInto acc xs) ys := by
  simp [dedupInto, List.foldl_append]

/-- Helper: the pattern-major fold of extract_urgency_cues equals one
dedupInto over the concatenated per-pattern match lists. -/
theorem foldl_dedupInto_flatMap {α β : Type} [DecidableEq β]
    (pats : List α) (f : α → List β) (acc : List β) :
    pats.foldl (fun acc p => dedupInto acc (f p)) acc
      = dedupInto acc (pats.flatMap f) := by
  induction pats generalizing acc with
  | nil => simp [dedupInto]
  | cons p ps ih => simp [List.flatMap_cons, dedupInto_append, ih]

/-- C6 counterexample: in the text today urgent, the substring today
occurs first, yet the cue list is [urgent, today] (pattern-declaration
order), not the claimed first-occurrence order [today, urgent].
Moreover for the deadline pattern due with a capture group, the recorded
string for the text due by friday is the captured group by, not the
matched substring due by. -/
theorem urgency_cues_order_counterexample :
    extract_urgency_cues "today urgent" = ["urgent", "today"] ∧
    extract_urgency_cues "today urgent" ≠ ["today", "urgent"] ∧
    extract_urgency_cues "due by friday" = ["by"] := by
  refine ⟨by decide, by decide, by decide⟩

/-- C6 (amended): for every input text, urgency-cue extraction records
each string produced by the patterns (the whole match for group-free
patterns, the captured group for the two grouped patterns) exactly once
regardless of which pattern matched it, and the list equals one
first-keeps deduplication of the per-pattern findall results
concatenated in pattern-declaration order (so the order is
pattern-major, then first occurrence within a pattern, not global
first-occurrence order). -/
theorem urgency_cues_unique_pattern_major (text : String) :
    (extract_urgency_cues text).Nodup ∧
    (∀ m, m ∈ extract_urgency_cues text ↔
      ∃ p ∈ URGENCY_PATTERNS, m ∈ findall p.1 (pyLower text)) ∧
    extract_urgency_cues text
      = dedupInto [] (URGENCY_PATTERNS.flatMap fun p => findall p.1 (pyLower text)) := by
  have he : extract_urgency_cues text
      = dedupInto [] (URGENCY_PATTERNS.flatMap fun p => findall p.1 (pyLower text)) := by
    rw [extract_urgency_cues]
    exact foldl_dedupInto_flatMap URGENCY_PATTERNS _ []
  refine ⟨?_, ?_, he⟩
  · rw [he]
    exact dedupInto_nodup _ _ List.nodup_nil
  · intro m
    rw [he, dedupInto_mem]
    simp [List.mem_flatMap]

/-! ## C7: the newsletter rule overrides unconditionally -/

/-- Helper: when some newsletter pattern matches the sender address or
the text, the newsletter step overwrites category to FYI and priority to
P3 and raises confidence to at least 0.8, whatever the incoming state. -/
theorem newsletterStep_fires (from_addr text : String) (s : RuleState)
    (h : ∃ p ∈ NEWSLETTER_PATTERNS,
      (strContains from_addr p || strContains text p) = true) :
    (newsletterStep from_addr text s).category = some "FYI" ∧
    (newsletterStep from_addr text s).priority = some "P3" ∧
    8/10 ≤ (newsletterStep from_addr text s).confidence := by
  have hfind : (NEWSLETTER_PATTERNS.find?
      (fun pat => strContains from_addr pat || strContains text pat)).isSome = true := by
    rw [List.find?_isSome]
    obtain ⟨p, hp, hmatch⟩ := h
    exact ⟨p, hp, hmatch⟩
  obtain ⟨p, hp⟩ := Option.isSome_iff_exists.mp hfind
  unfold newsletterStep
  rw [hp]
  exact ⟨rfl, rfl, le_max_right _ _⟩

/-- Helper: the short-question step never changes category, priority or
confidence of a state whose category is already set. -/
theorem questionStep_preserves (text : String) (s : RuleState)
    (h : s.category.isSome = true) :
    (questionStep text s).category = s.category ∧
    (questionStep text s).priority = s.priority ∧
    (questionStep text s).confidence = s.confidence := by
  obtain ⟨c, hc⟩ := Option.isSome_iff_exists.mp h
  unfold questionStep
  split <;> simp [hc]

/-- Helper: the meeting step never changes category, priority or
confidence of a state whose category is already set. -/
theorem meetingStep_preserves (itemType text : String) (s : RuleState)
    (h : s.category.isSome = true) :
    (meetingStep itemType text s).category = s.category ∧
    (meetingStep itemType text s).priority = s.priority ∧
    (meetingStep itemType text s).confidence = s.confidence := by
  obtain ⟨c, hc⟩ := Option.isSome_iff_exists.mp h
  unfold meetingStep
  split <;> simp [hc]

/-- Helper: through the final two rule steps, a newsletter match forces
category FYI, priority P3 and confidence at least 0.8, from any state. -/
theorem newsletter_then_rest (from_addr text itemType : String) (s : RuleState)
    (h : ∃ p ∈ NEWSLETTER_PATTERNS,
      (strContains from_addr p || strContains text p) = true) :
    (meetingStep itemType text (questionStep text (newsletterStep from_addr text s))).category
      = some "FYI" ∧
    (meetingStep itemType text (questionStep text (newsletterStep from_addr text s))).priority
      = some "P3" ∧
    8/10 ≤ (meetingStep itemType text
      (questionStep text (newsletterStep from_addr text s))).confidence := by
  obtain ⟨h4c, h4p, h4f⟩ := newsletterStep_fires from_addr text s h
  have h4some : (newsletterStep from_addr text s).category.isSome = true := by
    rw [h4c]; rfl
  obtain ⟨h5c, h5p, h5f⟩ := questionStep_preserves text _ h4some
  have h5some : (questionStep text (newsletterStep from_addr text s)).category.isSome
      = true := by
    rw [h5c, h4c]; rfl
  obtain ⟨h6c, h6p, h6f⟩ := meetingStep_preserves itemType text _ h5some
  refine ⟨?_, ?_, ?_⟩
  · rw [h6c, h5c, h4c]
  · rw [h6p, h5p, h4p]
  · rw [h6f, h5f]; exact h4f

/-- C7: for every item whose lowercased sender address or lowercased
subject-plus-body text contains a newsletter pattern, rule evaluation
yields category FYI and priority P3 with confidence at least 0.8,
regardless of any category or priority set by the earlier VIP, urgency
and keyword rules. -/
theorem newsletter_pattern_overrides (item : IntakeItem)
    (entities : ExtractedEntities)
    (h : ∃ p ∈ NEWSLETTER_PATTERNS,
      (strContains (pyLower (item.from_address.getD "")) p
        || strContains
            (pyLower ((item.subject.getD "") ++ " " ++ (item.body.getD ""))) p) = true) :
    (apply_rules item entities).2.1 = some "FYI" ∧
    (apply_rules item entities).2.2.1 = some "P3" ∧
    8/10 ≤ (apply_rules item entities).2.2.2 := by
  obtain ⟨h1, h2, h3⟩ := newsletter_then_rest
    (pyLower (item.from_address.getD ""))
    (pyLower ((item.subject.getD "") ++ " " ++ (item.body.getD "")))
    item.type
    (keywordStep (pyLower ((item.subject.getD "") ++ " " ++ (item.body.getD "")))
      (urgencyStep entities (vipStep (pyLower (item.from_address.getD "")) {})))
    h
  exact ⟨h1, h2, h3⟩

/-- Witness for C7: an item with urgency cue urgent and sender
newsletter@x.com is classified FYI / P3 with confidence at least 0.8,
not Action-Required. -/
theorem newsletter_pattern_overrides_witness :
    (apply_rules itemNewsletterUrgent entUrgent).2.1 = some "FYI" ∧
    (apply_rules itemNewsletterUrgent entUrgent).2.2.1 = some "P3" ∧
    8/10 ≤ (apply_rules itemNewsletterUrgent entUrgent).2.2.2 :=
  newsletter_pattern_overrides itemNewsletterUrgent entUrgent (by decide)

/-! ## C8: the similarity query contract -/

/-- Helper: every item produced by the result-processing loop has an id
distinct from the querying id, originates from some position j of the
returned ids, passed the minimum-similarity filter on the unrounded
similarity, and reports that similarity rounded to 3 decimals. -/
theorem processResults_mem (itemId : String) (minSim : ℚ) (distances : List ℚ)
    (metadatas : List ChromaMeta) :
    ∀ (ids : List String) (i0 : Nat) (s : SimilarItem),
      s ∈ processResults itemId minSim distances metadatas i0 ids →
      s.id ≠ itemId ∧ ∃ j, ids[j]? = some s.id ∧
        minSim ≤ 1 / (1 + distances.getD (i0 + j) 1) ∧
        s.similarity = round3 (1 / (1 + distances.getD (i0 + j) 1)) := by
  intro ids
  induction ids with
  | nil => intro i0 s hs; simp [processResults] at hs
  | cons docId rest ih =>
    intro i0 s hs
    rw [processResults] at hs
    by_cases h1 : docId = itemId
    · rw [if_pos h1] at hs
      obtain ⟨hne, j, hj, hmin, hsim⟩ := ih (i0 + 1) s hs
      refine ⟨hne, j + 1, ?_, ?_, ?_⟩
      · simpa using hj
      · have : i0 + 1 + j = i0 + (j + 1) := by omega
        rw [← this]; exact hmin
      · have : i0 + 1 + j = i0 + (j + 1) := by omega
        rw [← this]; exact hsim
    · rw [if_neg h1] at hs
      by_cases h2 : 1 / (1 + distances.getD i0 1) < minSim
      · rw [if_pos h2] at hs
        obtain ⟨hne, j, hj, hmin, hsim⟩ := ih (i0 + 1) s hs
        refine ⟨hne, j + 1, ?_, ?_, ?_⟩
        · simpa using hj
        · have : i0 + 1 + j = i0 + (j + 1) := by omega
          rw [← this]; exact hmin
        · have : i0 + 1 + j = i0 + (j + 1) := by omega
          rw [← this]; exact hsim
      · rw [if_neg h2] at hs
        rcases List.mem_cons.mp hs with heq | htail
        · subst heq
          refine ⟨h1, 0, by simp, ?_, ?_⟩
          · simpa using le_of_not_lt h2
          · simp
        · obtain ⟨hne, j, hj, hmin, hsim⟩ := ih (i0 + 1) s htail
          refine ⟨hne, j + 1, ?_, ?_, ?_⟩
          · simpa using hj
          · have : i0 + 1 + j = i0 + (j + 1) := by omega
            rw [← this]; exact hmin
          · have : i0 + 1 + j = i0 + (j + 1) := by omega
            rw [← this]; exact hsim

/-- C8: for every query item, index state (reply) and parameters, the
similarity query returns at most top_k neighbors, never includes the
querying item id, is ordered by similarity descending, and each returned
neighbor comes from a position j of the reply whose unrounded similarity
1 / (1 + distance) meets the minimum threshold and is reported rounded
to 3 decimal places; the same bound, self-exclusion and ordering hold
for a failed query, which returns the empty list. -/
theorem find_similar_contract (count : Nat) (item : IntakeItem) (top_k : Nat)
    (minSim : ℚ) (reply : QueryReply) :
    (∀ q : Except String QueryReply,
      (find_similar count item top_k minSim q).length ≤ top_k) ∧
    (∀ (q : Except String QueryReply) (s : SimilarItem),
      s ∈ find_similar count item top_k minSim q → s.id ≠ item.id) ∧
    (∀ q : Except String QueryReply,
      (find_similar count item top_k minSim q).Sorted simDesc) ∧
    (∀ s ∈ find_similar count item top_k minSim (.ok reply), ∃ j,
      reply.ids[j]? = some s.id ∧
      minSim ≤ 1 / (1 + (reply.distances.getD []).getD j 1) ∧
      s.similarity = round3 (1 / (1 + (reply.distances.getD []).getD j 1))) := by
  have hbase : ∀ (r : QueryReply) (s : SimilarItem),
      s ∈ find_similar count item top_k minSim (.ok r) →
      s.id ≠ item.id ∧ ∃ j, r.ids[j]? = some s.id ∧
        minSim ≤ 1 / (1 + (r.distances.getD []).getD j 1) ∧
        s.similarity = round3 (1 / (1 + (r.distances.getD []).getD j 1)) := by
    intro r s hs
    rw [find_similar.eq_def] at hs
    by_cases hc : count = 0
    · rw [if_pos hc] at hs; simp at hs
    · rw [if_neg hc] at hs
      dsimp only [] at hs
      by_cases hids : r.ids.isEmpty
      · rw [if_pos hids] at hs; simp at hs
      · rw [if_neg hids] at hs
        have hmem : s ∈ processResults item.id minSim (r.distances.getD [])
            (r.metadatas.getD []) 0 r.ids := by
          have h1 : s ∈ (processResults item.id minSim (r.distances.getD [])
              (r.metadatas.getD []) 0 r.ids).insertionSort simDesc :=
            List.mem_of_mem_take hs
          exact (List.perm_insertionSort simDesc _).mem_iff.mp h1
        obtain ⟨hne, j, hj, hmin, hsim⟩ :=
          processResults_mem item.id minSim (r.distances.getD [])
            (r.metadatas.getD []) r.ids 0 s hmem
        exact ⟨hne, j, hj, by simpa using hmin, by simpa using hsim⟩
  refine ⟨?_, ?_, ?_, ?_⟩
  · intro q
    rw [find_similar.eq_def]
    by_cases hc : count = 0
    · simp [hc]
    · rw [if_neg hc]
      cases q with
      | error e => simp
      | ok r =>
        dsimp only []
        by_cases hids : r.ids.isEmpty
        · simp [hids]
        · rw [if_neg hids]
          exact (List.length_take_le _ _)
  · intro q s hs
    cases q with
    | error e =>
      rw [find_similar.eq_def] at hs
      by_cases hc : count = 0
      · rw [if_pos hc] at hs; simp at hs
      · rw [if_neg hc] at hs; simp at hs
    | ok r => exact (hbase r s hs).1
  · intro q
    rw [find_similar.eq_def]
    by_cases hc : count = 0
    · simp [hc, List.Sorted]
    · rw [if_neg hc]
      cases q with
      | error e => simp [List.Sorted]
      | ok r =>
        dsimp only []
        by_cases hids : r.ids.isEmpty
        · simp [hids, List.Sorted]
        · rw [if_neg hids]
          exact (List.sorted_insertionSort simDesc _).sublist (List.take_sublist _ _)
  · intro s hs
    exact (hbase reply s hs).2

/-- Witness for C8: on a two-entry reply containing the querying item
itself and one neighbor at distance 0, the returned neighbor is that
entry, with similarity 1 meeting the default threshold. -/
theorem find_similar_contract_witness :
    ∃ j, replyFixture.ids[j]? = some "a" ∧
      MIN_SIMILARITY ≤ 1 / (1 + (replyFixture.distances.getD []).getD j 1) ∧
      (1 : ℚ) = round3 (1 / (1 + (replyFixture.distances.getD []).getD j 1)) :=
  (find_similar_contract 2 itemQ 5 MIN_SIMILARITY replyFixture).2.2.2
    { id := "a", similarity := 1 }
    (by
      have hval : find_similar 2 itemQ 5 MIN_SIMILARITY (.ok replyFixture)
          = [{ id := "a", similarity := 1 }] := by
        rw [find_similar.eq_def]
        norm_num [replyFixture, itemQ, processResults, round3, MIN_SIMILARITY,
          List.insertionSort, List.orderedInsert, round_eq]
      rw [hval]
      simp)

end Imladris
